import Mathlib

/-!
Verification of the retention decision engine of `plex_cleaner_3k`.

Shallow embedding of `src/movie_cleaner.py` and the service modules it uses.
Python `datetime` values are modelled at day granularity as integers
(`timedelta(days=n)` becomes `+ n`); floats are modelled as exact rationals;
Python exceptions are modelled with `Except PyError`.
-/

/-- Python exceptions that the cleaner's code paths can raise or catch:
`ZeroDivisionError` (from `sum(ratings)/len(ratings)` on an empty list),
`plexapi.exceptions.NotFound` (movie absent from the Plex library), and a
catch-all for any other exception (network errors etc.), carrying
its rendered message. -/
inductive PyError where
  | zeroDivisionError : PyError
  | notFound : PyError
  | other : String → PyError
deriving DecidableEq

deriving instance DecidableEq for Except

/-- Rendering of an exception as Python would interpolate it into an f-string. -/
def errMessage : PyError → String
  | .zeroDivisionError => "division by zero"
  | .notFound => "NotFound"
  | .other m => m

/-- models/external_rating.py `ExternalRating` (field order as in the dataclass,
which is the order `dataclasses.fields` iterates in). -/
structure ExternalRating where
  imdb : Option ℚ
  rotten_tomatoes : Option ℚ
  tmdb : Option ℚ
  metacritic : Option ℚ
  trakt : Option ℚ
deriving DecidableEq

/-- The `value` entries of the Radarr movie's `ratings` dict, keyed by the
Radarr-side names (after the `service.replace("_t", "T")` key mapping in
`get_external_ratings`). -/
structure RadarrRatings where
  imdb : Option ℚ
  rottenTomatoes : Option ℚ
  tmdb : Option ℚ
  metacritic : Option ℚ
  trakt : Option ℚ
deriving DecidableEq

/-- models/config.py `PlexConfig`. -/
structure PlexConfig where
  url : String
  token : String
deriving DecidableEq

/-- models/config.py `TautulliConfig`. -/
structure TautulliConfig where
  url : String
  api_key : String
deriving DecidableEq

/-- models/config.py `RadarrConfig`. -/
structure RadarrConfig where
  url : String
  api_key : String
deriving DecidableEq

/-- models/config.py `DaysThreshold`. -/
structure DaysThreshold where
  admin : ℤ
  user : ℤ
  low_rating : ℤ
deriving DecidableEq

/-- models/config.py `RatingThreshold`. -/
structure RatingThreshold where
  admin : ℤ
  user : ℤ
  low_rating : ℤ
deriving DecidableEq

/-- models/config.py `OverseerrConfig`. -/
structure OverseerrConfig where
  url : String
  api_key : String
  email : String
  password : String
  admin_emails : List String := []
deriving DecidableEq

/-- models/config.py `Config`. -/
structure Config where
  plex : PlexConfig
  tautulli : TautulliConfig
  radarr : List RadarrConfig
  overseerr : OverseerrConfig
  days_threshold : DaysThreshold
  rating_threshold : RatingThreshold
  admin_emails : List String := []
deriving DecidableEq

/-- models/movie_info.py `MovieInfo`; datetimes are integer day numbers. -/
structure MovieInfo where
  title : String
  tmdb_id : String
  radarr_id : ℤ
  added_at : ℤ
  external_ratings : ExternalRating
  requested_by : Option String
  last_watched : Option ℤ
  user_rating : Option ℚ
  expires_at : Option ℤ := none
deriving DecidableEq

/-- Python truthiness of an optional float: `None` and `0.0` are falsy. -/
def ratingTruthy : Option ℚ → Bool
  | none => false
  | some v => v != 0

/-- Python truthiness of an optional string: `None` and `""` are falsy. -/
def strTruthy : Option String → Bool
  | none => false
  | some s => s != ""

/-- movie_cleaner.py `MovieCleaner.get_external_ratings`: copies each rating's
`value` and divides `rotten_tomatoes` and `metacritic` by 10 when truthy. -/
def get_external_ratings (raw : RadarrRatings) : ExternalRating where
  imdb := raw.imdb
  rotten_tomatoes :=
    if ratingTruthy raw.rottenTomatoes then raw.rottenTomatoes.map (fun v => v / 10)
    else raw.rottenTomatoes
  tmdb := raw.tmdb
  metacritic :=
    if ratingTruthy raw.metacritic then raw.metacritic.map (fun v => v / 10)
    else raw.metacritic
  trakt := raw.trakt

/-- The `fields(movie_info.external_ratings)` iteration order. -/
def externalRatingFields (er : ExternalRating) : List (Option ℚ) :=
  [er.imdb, er.rotten_tomatoes, er.tmdb, er.metacritic, er.trakt]

/-- The `ratings` list built in `_determine_average_external_rating`: the loop
appends a field's value only when `getattr(...)` is truthy, so `None` and `0`
are both skipped. -/
def presentRatings (er : ExternalRating) : List ℚ :=
  (externalRatingFields er).filterMap fun o =>
    match o with
    | none => none
    | some v => if v = 0 then none else some v

/-- Round half to even (Python's `round`) on an exact rational. -/
def roundHalfEven (q : ℚ) : ℤ :=
  let n := ⌊q⌋
  let r := q - (n : ℚ)
  if r < 1 / 2 then n
  else if 1 / 2 < r then n + 1
  else if n % 2 = 0 then n else n + 1

/-- Python's `round(x, 1)` modelled on exact rationals. -/
def pyRound1 (q : ℚ) : ℚ := (roundHalfEven (q * 10) : ℚ) / 10

/-- movie_cleaner.py `MovieCleaner._determine_average_external_rating`:
`round(sum(ratings) / len(ratings), 1)` over the truthy rating fields;
raises `ZeroDivisionError` when every source is absent (empty list). -/
def determine_average_external_rating (er : ExternalRating) : Except PyError ℚ :=
  let ratings := presentRatings er
  if ratings.length = 0 then .error .zeroDivisionError
  else .ok (pyRound1 (ratings.sum / (ratings.length : ℚ)))

/-- Python's `str.lower()`: lowercase every character (ASCII-faithful model,
written over the character list so that it evaluates structurally). -/
def pyLower (s : String) : String := ⟨s.data.map Char.toLower⟩

/-- The `is_admin_request` expression in `_determine_retention_days`:
`not movie_info.requested_by or movie_info.requested_by.lower() in
self.config.overseerr.admin_emails`. Only the requester is lowercased;
the configured identities are compared verbatim. -/
def is_admin_request (cfg : Config) (info : MovieInfo) : Bool :=
  !strTruthy info.requested_by ||
    cfg.overseerr.admin_emails.contains (pyLower (info.requested_by.getD ""))

/-- movie_cleaner.py `MovieCleaner._determine_retention_days`. The `or` in
`if not movie_info.user_rating or self._determine_average_external_rating(...) < 3.5`
short-circuits, so the average (which can raise) is only computed when a truthy
user rating exists. -/
def determine_retention_days (cfg : Config) (info : MovieInfo) : Except PyError ℤ :=
  if ratingTruthy info.user_rating ∧
      info.user_rating.getD 0 ≤ (cfg.rating_threshold.low_rating : ℚ) then
    .ok cfg.days_threshold.low_rating
  else if !ratingTruthy info.user_rating then
    .ok (if is_admin_request cfg info then cfg.days_threshold.admin
         else cfg.days_threshold.user)
  else
    match determine_average_external_rating info.external_ratings with
    | .error e => .error e
    | .ok avg =>
      if avg < 7 / 2 then
        .ok (if is_admin_request cfg info then cfg.days_threshold.admin
             else cfg.days_threshold.user)
      else .ok cfg.days_threshold.low_rating

/-- movie_cleaner.py `MovieCleaner._is_imdb_top_250`: membership of the title
in the scraped list. -/
def is_imdb_top_250 (top250 : List String) (info : MovieInfo) : Bool :=
  top250.contains info.title

/-- movie_cleaner.py `MovieCleaner._calculate_expiry_date`: the rule chain.
`last_activity = movie_info.last_watched or movie_info.added_at` (datetimes are
always truthy, so this is just defaulting), then
`last_activity + timedelta(days=retention_days)`. -/
def calculate_expiry_date (cfg : Config) (top250 : List String) (info : MovieInfo) :
    Except PyError (Option ℤ) :=
  if ratingTruthy info.user_rating ∧
      (cfg.rating_threshold.admin : ℚ) ≤ info.user_rating.getD 0 then
    .ok none
  else if is_imdb_top_250 top250 info then
    .ok none
  else
    match determine_average_external_rating info.external_ratings with
    | .error e => .error e
    | .ok avg =>
      if 8 ≤ avg then .ok none
      else
        match determine_retention_days cfg info with
        | .error e => .error e
        | .ok days => .ok (some (info.last_watched.getD info.added_at + days))

/-- movie_cleaner.py `MovieCleaner._is_expired`:
`expires_at and datetime.now() >= expires_at`, as a boolean. -/
def is_expired (now : ℤ) (expires_at : Option ℤ) : Bool :=
  match expires_at with
  | none => false
  | some t => t ≤ now

/-- Day number of a proleptic-Gregorian calendar date (days since 1970-01-01),
the day-granularity model of a Python `datetime`.  All intermediate quantities
are nonnegative for the years used here, so the integer-division convention is
immaterial. -/
def daysFromCivil (y m d : ℤ) : ℤ :=
  let y2 := if m ≤ 2 then y - 1 else y
  let era := (if 0 ≤ y2 then y2 else y2 - 399) / 400
  let yoe := y2 - era * 400
  let mp := (m + 9) % 12
  let doy := (153 * mp + 2) / 5 + d - 1
  let doe := yoe * 365 + yoe / 4 - yoe / 100 + doy
  era * 146097 + doe - 719468

/-- One entry of `MovieCleaner.combined_movies[tmdb_id]`: a backend copy held by
one Radarr instance, carrying the Radarr-side movie id used for deletion. -/
structure MovieCopy where
  instanceIdx : ℕ
  radarr_id : ℤ
  title : String
deriving DecidableEq

/-- The identity of a `delete_movie` invocation: which Radarr instance is asked
to delete which Radarr movie id. -/
def copyCall (m : MovieCopy) : ℕ × ℤ := (m.instanceIdx, m.radarr_id)

/-- movie_cleaner.py `MovieCleaner._delete_movies`, abstracted to the sequence
of `RadarrService.delete_movie` invocations it performs: per expired id it logs,
then — unless `dry_run` — calls `delete_movie` once per backend copy. -/
def delete_movies (combined : String → List MovieCopy) (movies : List String)
    (dry_run : Bool) : List (ℕ × ℤ) :=
  movies.foldl
    (fun acc id =>
      acc ++ (if dry_run then [] else (combined id).map copyCall))
    []

/-- One unit of work handed to `_process_single_movie`: the TMDB id and the
first backend copy's title (`movie[0]["title"]`, used in the error log), plus
the outcome of `_get_movie_info`'s signal fetching, which either yields the
assembled `MovieInfo` or raises (`NotFound` from the Plex lookup, or any other
exception from a collaborator). -/
structure BatchItem where
  tmdb_id : String
  title : String
  fetch : Except PyError MovieInfo

/-- movie_cleaner.py `MovieCleaner._process_single_movie`: returns the TMDB id
when the movie should be deleted, `None` otherwise; `NotFound` is silently
swallowed while any other exception (including a `ZeroDivisionError` escaping
`_calculate_expiry_date`) is logged with the movie title.  The second component
is the list of `logger.error` messages emitted. -/
def process_single_movie (cfg : Config) (top250 : List String) (now : ℤ)
    (b : BatchItem) : Option String × List String :=
  if b.tmdb_id = "" then (none, [])
  else
    match b.fetch with
    | .error .notFound => (none, [])
    | .error e => (none, ["Error processing movie " ++ b.title ++ ": " ++ errMessage e])
    | .ok info =>
      match calculate_expiry_date cfg top250 info with
      | .error e => (none, ["Error processing movie " ++ b.title ++ ": " ++ errMessage e])
      | .ok expiry =>
        if is_expired now expiry then (some b.tmdb_id, []) else (none, [])

/-- The truthiness filter `[tmdb_id for tmdb_id in results if tmdb_id]` in
`_process_movies` (`None` and the empty string are dropped). -/
def truthyId : Option String → Option String
  | none => none
  | some s => if s = "" then none else some s

/-- movie_cleaner.py `MovieCleaner._process_movies`: maps
`_process_single_movie` over the batch and keeps the truthy results; the second
component collects the error-log messages of all items. -/
def process_movies (cfg : Config) (top250 : List String) (now : ℤ)
    (batch : List BatchItem) : List String × List String :=
  let results := batch.map (process_single_movie cfg top250 now)
  (results.filterMap (fun r => truthyId r.1), results.flatMap (fun r => r.2))

/-- One Overseerr request, reduced to the fields the cleaner reads. -/
structure Request where
  media_tmdbId : ℤ
  requestedBy_email : Option String
deriving DecidableEq

/-- services/overseerr.py `OverseerrService.get_all_requests`: pages 1..9 are
fetched in order and concatenated; `raise_for_status` means a failing page
propagates its exception — there is no handler. -/
def get_all_requests (fetchPage : ℕ → Except PyError (List Request)) :
    Except PyError (List Request) :=
  (List.range 9).foldlM
    (fun acc p =>
      match fetchPage (p + 1) with
      | .error e => .error e
      | .ok page => .ok (acc ++ page))
    []

/-- movie_cleaner.py `MovieCleaner.scrape_imdb_top_250`: the whole fetch/parse
is wrapped in `try/except Exception`, so a failure yields the empty list plus
one `logger.error` message; `fetch` abstracts the network request and parsing
of the IMDB chart page into the list of the 250 titles. -/
def scrape_imdb_top_250 (fetch : Except PyError (List String)) :
    List String × List String :=
  match fetch with
  | .ok titles => (titles, [])
  | .error e => ([], ["Error retrieving IMDB Top 250: " ++ errMessage e])

/-- The source-list state built by `MovieCleaner.__init__` (lines 49-50):
the Overseerr requests, the IMDB Top 250 titles, and the error-log messages
emitted while building them. -/
structure CleanerInit where
  overseerr_requests : List Request
  imdb_top_250 : List String
  logs : List String
deriving DecidableEq

/-- Lines 49-50 of `MovieCleaner.__init__`:
`self.overseerr_requests = self.overseerr.get_all_requests()` (unguarded, so a
failure propagates out of the constructor and aborts the run) followed by
`self.imdb_top_250 = self.scrape_imdb_top_250()` (guarded internally). -/
def movieCleanerInit (fetchPage : ℕ → Except PyError (List Request))
    (topFetch : Except PyError (List String)) : Except PyError CleanerInit :=
  match get_all_requests fetchPage with
  | .error e => .error e
  | .ok reqs =>
    let scraped := scrape_imdb_top_250 topFetch
    .ok ⟨reqs, scraped.1, scraped.2⟩

/-! Concrete instances used by the witnesses and counterexamples below. -/

/-- A configuration with administrator days 60, user days 30, low-rating days 7,
never-expire rating threshold 9, and a lowercase administrator identity. -/
def cfgStd : Config where
  plex := ⟨"http://plex:32400", "token"⟩
  tautulli := ⟨"http://tautulli:8181", "key"⟩
  radarr := [⟨"http://radarr:7878", "key"⟩]
  overseerr := ⟨"http://overseerr:5055", "key", "owner@example.com", "pw",
    ["admin@example.com"]⟩
  days_threshold := ⟨60, 30, 7⟩
  rating_threshold := ⟨9, 5, 2⟩

/-- The same configuration but with the administrator identity configured with
uppercase letters. -/
def cfgUpperAdmin : Config :=
  { cfgStd with
    overseerr := { cfgStd.overseerr with admin_emails := ["Admin@Example.com"] } }

/-- All five external rating sources absent. -/
def erAbsent : ExternalRating := ⟨none, none, none, none, none⟩

/-- An unrated, unrequested, never-watched record with every external rating
source absent. -/
def infoBase : MovieInfo where
  title := "Example Movie"
  tmdb_id := "100"
  radarr_id := 1
  added_at := 0
  external_ratings := erAbsent
  requested_by := none
  last_watched := none
  user_rating := none

/-- The record of the spec's expiry example: added 2024-01-01, never watched,
no user rating, one middling external rating so that rule 4 is reached. -/
def infoExpiryExample : MovieInfo :=
  { infoBase with
    added_at := daysFromCivil 2024 1 1
    external_ratings := { erAbsent with imdb := some 5 } }

/-- A record whose requester differs from `cfgUpperAdmin`'s configured
administrator identity only in letter case. -/
def infoLowerRequester : MovieInfo :=
  { infoBase with requested_by := some "admin@example.com" }

/-- The raw ratings of the spec's normalization example. -/
def rawExample : RadarrRatings :=
  ⟨some 7, some 80, some (13 / 2), none, none⟩

/-- A request-list page fetcher that always fails. -/
def failingPages : ℕ → Except PyError (List Request) :=
  fun _ => .error (.other "HTTP 500")

/-- A request-list page fetcher that always succeeds with no results. -/
def okPages : ℕ → Except PyError (List Request) :=
  fun _ => .ok []

/-- An item whose signals resolve and whose expiry (day 60) has passed at the
evaluation instant used in the pipeline witness (day 100). -/
def itemExpired : BatchItem :=
  ⟨"1", "Movie One",
    .ok { infoBase with
          tmdb_id := "1"
          external_ratings := { erAbsent with imdb := some 1 } }⟩

/-- An item whose Plex lookup raises `NotFound`. -/
def itemNotFound : BatchItem := ⟨"2", "Movie Two", .error .notFound⟩

/-- An item whose signal fetching raises a transient network error. -/
def itemTransient : BatchItem :=
  ⟨"3", "Movie Three", .error (.other "connection reset")⟩

/-- An item whose signals resolve and whose expiry (day 160) has not passed at
day 100. -/
def itemKept : BatchItem :=
  ⟨"4", "Movie Four",
    .ok { infoBase with
          tmdb_id := "4"
          added_at := 100
          external_ratings := { erAbsent with imdb := some 1 } }⟩

/-- A per-backend-copy listing: id "1" has copies on two Radarr instances,
id "3" has one copy. -/
def combinedStd : String → List MovieCopy := fun id =>
  if id = "1" then [⟨0, 11, "Movie One"⟩, ⟨1, 21, "Movie One"⟩]
  else if id = "3" then [⟨0, 13, "Movie Three"⟩]
  else []

/-! Helper lemmas: evaluating the rounding function and the rule chain. -/

lemma roundHalfEven_eq_down (q : ℚ) (n : ℤ) (h1 : (n : ℚ) ≤ q) (h2 : q < n + 1 / 2) :
    roundHalfEven q = n := by
  have hf : ⌊q⌋ = n := by
    rw [Int.floor_eq_iff]
    refine ⟨h1, by linarith⟩
  unfold roundHalfEven
  rw [hf, if_pos (by linarith : q - (n : ℚ) < 1 / 2)]

lemma roundHalfEven_eq_up (q : ℚ) (n : ℤ) (h1 : (n : ℚ) + 1 / 2 < q) (h2 : q < n + 1) :
    roundHalfEven q = n + 1 := by
  have hf : ⌊q⌋ = n := by
    rw [Int.floor_eq_iff]
    exact ⟨by linarith, by linarith⟩
  unfold roundHalfEven
  rw [hf, if_neg (by linarith : ¬(q - (n : ℚ) < 1 / 2)),
    if_pos (by linarith : (1 : ℚ) / 2 < q - (n : ℚ))]

lemma pyRound1_intCast (n : ℤ) : pyRound1 (n : ℚ) = n := by
  unfold pyRound1
  rw [show ((n : ℚ) * 10) = ((n * 10 : ℤ) : ℚ) by push_cast; ring]
  rw [roundHalfEven_eq_down ((n * 10 : ℤ) : ℚ) (n * 10) le_rfl (by push_cast; linarith)]
  push_cast
  ring

lemma pyRound1_num (n : ℤ) (q : ℚ) (h : q = (n : ℚ)) : pyRound1 q = q := by
  rw [h, pyRound1_intCast]

lemma presentRatings_single_imdb (r : ℚ) (hr : r ≠ 0) :
    presentRatings { erAbsent with imdb := some r } = [r] := by
  simp [presentRatings, externalRatingFields, erAbsent, List.filterMap_cons, hr]

lemma davg_single_imdb (r : ℚ) (hr : r ≠ 0) :
    determine_average_external_rating { erAbsent with imdb := some r } =
      .ok (pyRound1 r) := by
  unfold determine_average_external_rating
  rw [presentRatings_single_imdb r hr]
  norm_num

/-- Rule 4 of `_calculate_expiry_date`: when no never-expire rule fires, the
expiry is the reference instant (last watched, else added) plus the retention
days. -/
lemma calcExpiry_rule4 (cfg : Config) (top250 : List String) (info : MovieInfo)
    (avg : ℚ) (days : ℤ)
    (h1 : ¬(ratingTruthy info.user_rating ∧
      (cfg.rating_threshold.admin : ℚ) ≤ info.user_rating.getD 0))
    (h2 : is_imdb_top_250 top250 info = false)
    (h3 : determine_average_external_rating info.external_ratings = .ok avg)
    (h4 : avg < 8)
    (h5 : determine_retention_days cfg info = .ok days) :
    calculate_expiry_date cfg top250 info =
      .ok (some (info.last_watched.getD info.added_at + days)) := by
  unfold calculate_expiry_date
  rw [if_neg h1, if_neg (by simp [h2]), h3]
  simp only
  rw [if_neg (not_le.mpr h4), h5]

/-! Claim theorems. -/

/-- Claim C1 (code-bug evidence): on a rating mapping in which all sources are
absent the normalizer does not signal a distinguished "no rating available"
result — `sum(ratings) / len(ratings)` raises `ZeroDivisionError` — and
`_calculate_expiry_date` propagates that exception from its rule-3 call, so
retention rule 4b is never reached for such a record. -/
theorem c1_all_absent_raises :
    determine_average_external_rating erAbsent = .error .zeroDivisionError ∧
    calculate_expiry_date cfgStd [] infoBase = .error .zeroDivisionError := by
  constructor
  · rfl
  · rfl

/-- Claim C9: a record whose user rating is present (truthy, per the code's
`if movie_info.user_rating` convention under which a rating of 0 counts as
absent) and at least the administrator never-expire rating threshold never
expires, regardless of all other fields. -/
theorem c9_high_user_rating (cfg : Config) (top250 : List String) (info : MovieInfo)
    (r : ℚ) (hur : info.user_rating = some r) (hr : r ≠ 0)
    (hthr : (cfg.rating_threshold.admin : ℚ) ≤ r) :
    calculate_expiry_date cfg top250 info = .ok none := by
  unfold calculate_expiry_date
  rw [if_pos]
  constructor
  · simp [ratingTruthy, hur, hr]
  · simp [hur, hthr]

/-- Witness for C9 at a concrete record: user rating 9.5 against threshold 9. -/
theorem c9_high_user_rating_witness :
    calculate_expiry_date cfgStd [] { infoBase with user_rating := some (19 / 2) } =
      .ok none :=
  c9_high_user_rating cfgStd [] { infoBase with user_rating := some (19 / 2) }
    (19 / 2) rfl (by norm_num) (by norm_num [cfgStd])

/-- Claim C8: a record whose title is in the Exemption Set (the scraped IMDB
Top 250 list) and whose user rating does not already satisfy rule 1 never
expires — even when the user rating is absent or low and every external rating
source is absent (rule 2 is checked before the normalizer ever runs). -/
theorem c8_exemption (cfg : Config) (top250 : List String) (info : MovieInfo)
    (hmem : info.title ∈ top250)
    (h1 : ¬(ratingTruthy info.user_rating ∧
      (cfg.rating_threshold.admin : ℚ) ≤ info.user_rating.getD 0)) :
    calculate_expiry_date cfg top250 info = .ok none := by
  unfold calculate_expiry_date
  rw [if_neg h1, if_pos]
  simp [is_imdb_top_250, hmem]

/-- Witness for C8 at a concrete record: an exempt title with no user rating
and all external ratings absent. -/
theorem c8_exemption_witness :
    calculate_expiry_date cfgStd ["The Godfather"]
      { infoBase with title := "The Godfather" } = .ok none :=
  c8_exemption cfgStd ["The Godfather"] { infoBase with title := "The Godfather" }
    (by simp) (by simp [ratingTruthy, infoBase])

/-- Claim C6: for a record reaching rule 4, the expiry instant is the reference
instant (the last-watched instant if present, else the added-at instant) plus
the retention-day count; concretely, added-at 2024-01-01 with no watch history
and an administrator day count of 60 expires on 2024-03-01. -/
theorem c6_expiry_reference (cfg : Config) (top250 : List String) (info : MovieInfo)
    (avg : ℚ) (days : ℤ)
    (h1 : ¬(ratingTruthy info.user_rating ∧
      (cfg.rating_threshold.admin : ℚ) ≤ info.user_rating.getD 0))
    (h2 : is_imdb_top_250 top250 info = false)
    (h3 : determine_average_external_rating info.external_ratings = .ok avg)
    (h4 : avg < 8)
    (h5 : determine_retention_days cfg info = .ok days) :
    calculate_expiry_date cfg top250 info =
      .ok (some (info.last_watched.getD info.added_at + days)) ∧
    calculate_expiry_date cfgStd [] infoExpiryExample =
      .ok (some (daysFromCivil 2024 3 1)) := by
  constructor
  · exact calcExpiry_rule4 cfg top250 info avg days h1 h2 h3 h4 h5
  · have havg : determine_average_external_rating infoExpiryExample.external_ratings =
        .ok 5 := by
      show determine_average_external_rating { erAbsent with imdb := some 5 } = .ok 5
      rw [davg_single_imdb 5 (by norm_num), pyRound1_num 5 5 (by norm_num)]
    have hret : determine_retention_days cfgStd infoExpiryExample = .ok 60 := by rfl
    rw [calcExpiry_rule4 cfgStd [] infoExpiryExample 5 60
      (by simp [infoExpiryExample, infoBase, ratingTruthy])
      (by rfl) havg (by norm_num) hret]
    show Except.ok (some (daysFromCivil 2024 1 1 + 60)) = _
    rw [show daysFromCivil 2024 1 1 + 60 = daysFromCivil 2024 3 1 by decide]

/-- Witness for C6 at the spec's concrete example record. -/
theorem c6_expiry_reference_witness :
    calculate_expiry_date cfgStd [] infoExpiryExample =
      .ok (some (daysFromCivil 2024 3 1)) :=
  (c6_expiry_reference cfgStd [] infoExpiryExample 5 60
    (by simp [infoExpiryExample, infoBase, ratingTruthy])
    (by rfl)
    (by rw [show infoExpiryExample.external_ratings =
          { erAbsent with imdb := some 5 } from rfl, davg_single_imdb 5 (by norm_num),
          pyRound1_num 5 5 (by norm_num)])
    (by norm_num)
    (by rfl)).2

/-- Claim C2 counterexample: a run whose request-list fetch fails does not
substitute an empty set and continue — the exception propagates out of
`__init__` (`get_all_requests` has no handler) and aborts the run. -/
theorem c2_counterexample :
    movieCleanerInit failingPages (.ok []) = .error (.other "HTTP 500") := by
  rfl

/-- Claim C2 (amended): a failure fetching the exemption list degrades
gracefully — the empty list is substituted, the failure is logged once, and
initialization completes — whereas a failure fetching the request list
propagates and aborts the run. -/
theorem c2_amended (fetchPage : ℕ → Except PyError (List Request))
    (topFetch : Except PyError (List String)) (e : PyError) (reqs : List Request) :
    (get_all_requests fetchPage = .error e →
      movieCleanerInit fetchPage topFetch = .error e) ∧
    (get_all_requests fetchPage = .ok reqs →
      movieCleanerInit fetchPage (.error e) =
        .ok ⟨reqs, [], ["Error retrieving IMDB Top 250: " ++ errMessage e]⟩) := by
  constructor
  · intro h
    unfold movieCleanerInit
    rw [h]
  · intro h
    unfold movieCleanerInit
    rw [h]
    rfl

/-- Witness for C2 (amended) at concrete fetch outcomes. -/
theorem c2_amended_witness :
    movieCleanerInit failingPages (.ok ["A"]) = .error (.other "HTTP 500") ∧
    movieCleanerInit okPages (.error (.other "timeout")) =
      .ok ⟨[], [], ["Error retrieving IMDB Top 250: timeout"]⟩ :=
  ⟨(c2_amended failingPages (.ok ["A"]) (.other "HTTP 500") []).1 (by rfl),
   (c2_amended okPages (.error (.other "timeout")) (.other "timeout") []).2 (by rfl)⟩

/-- Claim C3 counterexample: a requester differing from the configured
administrator identity only in letter case is NOT matched: with the identity
configured as "Admin@Example.com" and the requester "admin@example.com", rule
4b yields the non-administrator day count, because the code lowercases only the
requester and compares it verbatim against the configured list. -/
theorem c3_counterexample :
    "admin@example.com" ≠ "Admin@Example.com" ∧
    pyLower "admin@example.com" = pyLower "Admin@Example.com" ∧
    cfgUpperAdmin.overseerr.admin_emails = ["Admin@Example.com"] ∧
    infoLowerRequester.requested_by = some "admin@example.com" ∧
    determine_retention_days cfgUpperAdmin infoLowerRequester =
      .ok cfgUpperAdmin.days_threshold.user ∧
    cfgUpperAdmin.days_threshold.user ≠ cfgUpperAdmin.days_threshold.admin := by
  refine ⟨by decide, by decide, by rfl, by rfl, by decide, by decide⟩

/-- Claim C3 (amended): the requester identity is lowercased and then compared
verbatim with the configured administrator identities, so the match is
case-insensitive in the requester only: a record in rule 4b whose lowercased
requester equals a configured identity uses the administrator day count. -/
theorem c3_amended (cfg : Config) (info : MovieInfo) (r : String)
    (hreq : info.requested_by = some r)
    (hmem : pyLower r ∈ cfg.overseerr.admin_emails)
    (hur : ratingTruthy info.user_rating = false) :
    determine_retention_days cfg info = .ok cfg.days_threshold.admin := by
  have hadmin : is_admin_request cfg info = true := by
    unfold is_admin_request
    rw [hreq]
    simp [List.elem_iff, hmem]
  unfold determine_retention_days
  rw [if_neg (by simp [hur]), if_pos (by simp [hur]), if_pos (by simp [hadmin])]

/-- Witness for C3 (amended): an uppercase requester matching a lowercase
configured identity takes the administrator day count. -/
theorem c3_amended_witness :
    determine_retention_days cfgStd
      { infoBase with requested_by := some "ADMIN@EXAMPLE.COM" } =
      .ok cfgStd.days_threshold.admin :=
  c3_amended cfgStd { infoBase with requested_by := some "ADMIN@EXAMPLE.COM" }
    "ADMIN@EXAMPLE.COM" rfl (by decide) (by rfl)

/-- Claim C7: the Rating Normalizer divides 0-100-scale sources
(rotten_tomatoes, metacritic) by 10, passes the 0-10-scale sources through
unchanged, averages only the present sources and rounds to one decimal place;
on the spec's example input it returns 7.2. -/
theorem c7_normalizer :
    (∀ raw : RadarrRatings, (get_external_ratings raw).imdb = raw.imdb ∧
      (get_external_ratings raw).tmdb = raw.tmdb ∧
      (get_external_ratings raw).trakt = raw.trakt) ∧
    (∀ (raw : RadarrRatings) (x : ℚ), raw.rottenTomatoes = some x → x ≠ 0 →
      (get_external_ratings raw).rotten_tomatoes = some (x / 10)) ∧
    (∀ (raw : RadarrRatings) (x : ℚ), raw.metacritic = some x → x ≠ 0 →
      (get_external_ratings raw).metacritic = some (x / 10)) ∧
    determine_average_external_rating (get_external_ratings rawExample) =
      .ok (36 / 5) := by
  refine ⟨fun raw => ⟨rfl, rfl, rfl⟩, ?_, ?_, ?_⟩
  · intro raw x h hx
    unfold get_external_ratings
    simp [h, ratingTruthy, hx]
  · intro raw x h hx
    unfold get_external_ratings
    simp [h, ratingTruthy, hx]
  · have hger : get_external_ratings rawExample =
        ⟨some 7, some 8, some (13 / 2), none, none⟩ := by
      unfold get_external_ratings rawExample
      norm_num [ratingTruthy]
    have hpr : presentRatings ⟨some 7, some 8, some (13 / 2), none, none⟩ =
        [7, 8, 13 / 2] := by
      norm_num [presentRatings, externalRatingFields, List.filterMap_cons]
    rw [hger]
    unfold determine_average_external_rating
    rw [hpr]
    norm_num
    unfold pyRound1
    rw [show ((43 : ℚ) / 6 * 10) = 215 / 3 by norm_num,
      roundHalfEven_eq_up (215 / 3) 71 (by norm_num) (by norm_num)]
    norm_num

/-- Witness for C7: the scale division and the full normalization applied to
the spec's example input. -/
theorem c7_normalizer_witness :
    (get_external_ratings rawExample).rotten_tomatoes = some (80 / 10) ∧
    determine_average_external_rating (get_external_ratings rawExample) =
      .ok (36 / 5) :=
  ⟨c7_normalizer.2.1 rawExample 80 rfl (by norm_num), c7_normalizer.2.2.2⟩

/-- A user rating of exactly 0 drives `_determine_retention_days` down the same
path as an absent user rating (both are falsy). -/
lemma retention_user_zero (cfg : Config) (info : MovieInfo) :
    determine_retention_days cfg { info with user_rating := some 0 } =
      determine_retention_days cfg { info with user_rating := none } := by
  simp [determine_retention_days, ratingTruthy, is_admin_request]

/-- A user rating of exactly 0 drives `_calculate_expiry_date` down the same
path as an absent user rating. -/
lemma expiry_user_zero (cfg : Config) (top250 : List String) (info : MovieInfo) :
    calculate_expiry_date cfg top250 { info with user_rating := some 0 } =
      calculate_expiry_date cfg top250 { info with user_rating := none } := by
  simp [calculate_expiry_date, ratingTruthy, retention_user_zero,
    is_imdb_top_250]

/-- Claim C10: a rating value of exactly 0 is treated as absent throughout the
decision logic — an external source reporting 0 is excluded from the normalized
average (and keeps its raw value 0 instead of being scale-divided), and a user
rating of 0 takes the absent-rating path both in rule 1 of
`_calculate_expiry_date` and in the retention-day selection of rule 4. -/
theorem c10_zero_as_absent :
    (∀ er : ExternalRating,
      presentRatings { er with rotten_tomatoes := some 0 } =
        presentRatings { er with rotten_tomatoes := none }) ∧
    (∀ er : ExternalRating,
      presentRatings { er with imdb := some 0 } =
        presentRatings { er with imdb := none }) ∧
    (∀ raw : RadarrRatings,
      (get_external_ratings { raw with rottenTomatoes := some 0 }).rotten_tomatoes =
        some 0) ∧
    (∀ (cfg : Config) (info : MovieInfo),
      determine_retention_days cfg { info with user_rating := some 0 } =
        determine_retention_days cfg { info with user_rating := none }) ∧
    (∀ (cfg : Config) (top250 : List String) (info : MovieInfo),
      calculate_expiry_date cfg top250 { info with user_rating := some 0 } =
        calculate_expiry_date cfg top250 { info with user_rating := none }) := by
  refine ⟨?_, ?_, ?_, retention_user_zero, expiry_user_zero⟩
  · intro er
    unfold presentRatings externalRatingFields
    dsimp only
    rw [show [er.imdb, some (0 : ℚ), er.tmdb, er.metacritic, er.trakt] =
        [er.imdb] ++ [some (0 : ℚ)] ++ [er.tmdb, er.metacritic, er.trakt] from rfl,
      show [er.imdb, (none : Option ℚ), er.tmdb, er.metacritic, er.trakt] =
        [er.imdb] ++ [(none : Option ℚ)] ++ [er.tmdb, er.metacritic, er.trakt] from rfl,
      List.filterMap_append, List.filterMap_append, List.filterMap_append,
      List.filterMap_append]
    congr 1
  · intro er
    unfold presentRatings externalRatingFields
    dsimp only
    rw [show [some (0 : ℚ), er.rotten_tomatoes, er.tmdb, er.metacritic, er.trakt] =
        [some (0 : ℚ)] ++ [er.rotten_tomatoes, er.tmdb, er.metacritic, er.trakt] from rfl,
      show [(none : Option ℚ), er.rotten_tomatoes, er.tmdb, er.metacritic, er.trakt] =
        [(none : Option ℚ)] ++ [er.rotten_tomatoes, er.tmdb, er.metacritic, er.trakt] from
        rfl, List.filterMap_append, List.filterMap_append]
    congr 1
  · intro raw
    simp [get_external_ratings, ratingTruthy]

/-- The accumulating loop of `_delete_movies` is a flat concatenation. -/
lemma foldl_append_eq (g : String → List (ℕ × ℤ)) (l : List String)
    (acc : List (ℕ × ℤ)) :
    l.foldl (fun a id => a ++ g id) acc = acc ++ l.flatMap g := by
  induction l generalizing acc with
  | nil => simp
  | cons h t ih => simp [ih, List.append_assoc]

/-- `_delete_movies` as a flat map: nothing in dry-run mode, one
`delete_movie` call per backend copy of each listed id otherwise. -/
lemma delete_movies_eq (combined : String → List MovieCopy) (movies : List String)
    (dry_run : Bool) :
    delete_movies combined movies dry_run =
      if dry_run then [] else movies.flatMap (fun id => (combined id).map copyCall) := by
  cases dry_run with
  | true =>
    simp only [delete_movies, if_pos]
    rw [show (fun (a : List (ℕ × ℤ)) (id : String) => a ++ []) =
        (fun a id => a ++ (fun _ : String => ([] : List (ℕ × ℤ))) id) by
        funext a id; simp]
    rw [foldl_append_eq]
    simp
  | false =>
    simp only [delete_movies, if_neg]
    rw [foldl_append_eq]
    simp

/-- Counting occurrences across a flat map: a call absent from every listed
id's copy list occurs zero times. -/
lemma count_flatMap_zero (g : String → List (ℕ × ℤ)) (l : List String) (x : ℕ × ℤ)
    (h : ∀ id ∈ l, x ∉ g id) : (l.flatMap g).count x = 0 := by
  rw [List.count_eq_zero, List.mem_flatMap]
  rintro ⟨id, hid, hx⟩
  exact h id hid hx

/-- Counting occurrences across a flat map when exactly one listed id
contributes the call exactly once. -/
lemma count_flatMap_one (g : String → List (ℕ × ℤ)) (l : List String) (x : ℕ × ℤ)
    (id : String) (hnd : l.Nodup) (hmem : id ∈ l) (hone : (g id).count x = 1)
    (hother : ∀ id2 ∈ l, id2 ≠ id → x ∉ g id2) : (l.flatMap g).count x = 1 := by
  induction l with
  | nil => cases hmem
  | cons h t ih =>
    rw [List.flatMap_cons, List.count_append]
    rcases List.mem_cons.mp hmem with rfl | hmemt
    · rw [hone, count_flatMap_zero g t x, Nat.add_zero]
      intro id2 hid2
      exact hother id2 (List.mem_cons_of_mem _ hid2)
        (fun heq => (List.nodup_cons.mp hnd).1 (heq ▸ hid2))
    · have hh : h ≠ id := fun heq => (List.nodup_cons.mp hnd).1 (heq ▸ hmemt)
      rw [List.count_eq_zero.mpr (hother h (List.mem_cons_self h t) hh), Nat.zero_add]
      exact ih (List.nodup_cons.mp hnd).2 hmemt
        (fun id2 hid2 => hother id2 (List.mem_cons_of_mem _ hid2))

/-- Claim C5: for every set of expired ids and every per-backend-copy listing,
the dry-run executor performs no `delete_movie` call at all, and the live
executor performs the call exactly once per backend copy of each expired id
(stated for any copy occurring once in its id's listing and nowhere else). -/
theorem c5_delete_calls (combined : String → List MovieCopy) (movies : List String) :
    delete_movies combined movies true = [] ∧
    ∀ (id : String) (c : MovieCopy), movies.Nodup → id ∈ movies →
      ((combined id).map copyCall).count (copyCall c) = 1 →
      (∀ id2 ∈ movies, id2 ≠ id → copyCall c ∉ (combined id2).map copyCall) →
      (delete_movies combined movies false).count (copyCall c) = 1 := by
  constructor
  · rw [delete_movies_eq]
    rfl
  · intro id c hnd hmem hone hother
    rw [delete_movies_eq]
    simp only [if_neg Bool.false_ne_true]
    exact count_flatMap_one _ movies (copyCall c) id hnd hmem hone hother

/-- Witness for C5 at a concrete listing: two expired ids, one held on two
Radarr instances. -/
theorem c5_delete_calls_witness :
    delete_movies combinedStd ["1", "3"] true = [] ∧
    (delete_movies combinedStd ["1", "3"] false).count
      (copyCall ⟨0, 11, "Movie One"⟩) = 1 :=
  ⟨(c5_delete_calls combinedStd ["1", "3"]).1,
   (c5_delete_calls combinedStd ["1", "3"]).2 "1" ⟨0, 11, "Movie One"⟩
     (by decide) (by decide) (by decide) (by decide)⟩

/-! Pipeline helper lemmas for the batch-isolation claim. -/

lemma truthyId_eq_some (o : Option String) (x : String) :
    truthyId o = some x ↔ o = some x ∧ x ≠ "" := by
  unfold truthyId
  split
  next => simp
  next s =>
    split
    next hs =>
      subst hs
      constructor
      · intro h
        exact Option.noConfusion h
      · rintro ⟨h1, h2⟩
        cases h1
        exact absurd rfl h2
    next hs =>
      constructor
      · intro h
        cases h
        exact ⟨rfl, hs⟩
      · rintro ⟨h1, h2⟩
        cases h1
        rfl

lemma psm_fst_cases (cfg : Config) (top250 : List String) (now : ℤ) (b : BatchItem) :
    (process_single_movie cfg top250 now b).1 = none ∨
      ((process_single_movie cfg top250 now b).1 = some b.tmdb_id ∧ b.tmdb_id ≠ "") := by
  unfold process_single_movie
  repeat' split
  all_goals first
  | exact Or.inl rfl
  | exact Or.inr ⟨rfl, by assumption⟩

lemma psm_notFound (cfg : Config) (top250 : List String) (now : ℤ) (b : BatchItem)
    (hf : b.fetch = .error .notFound) :
    process_single_movie cfg top250 now b = (none, []) := by
  unfold process_single_movie
  rw [hf]
  split <;> rfl

lemma psm_err (cfg : Config) (top250 : List String) (now : ℤ) (b : BatchItem)
    (e : PyError) (hf : b.fetch = .error e) (he : e ≠ .notFound)
    (hid : b.tmdb_id ≠ "") :
    process_single_movie cfg top250 now b =
      (none, ["Error processing movie " ++ b.title ++ ": " ++ errMessage e]) := by
  unfold process_single_movie
  rw [if_neg hid, hf]
  cases e with
  | zeroDivisionError => rfl
  | notFound => exact absurd rfl he
  | other m => rfl

lemma psm_ok_snd (cfg : Config) (top250 : List String) (now : ℤ) (b : BatchItem)
    (info : MovieInfo) (exp : Option ℤ) (hf : b.fetch = .ok info)
    (he : calculate_expiry_date cfg top250 info = .ok exp) :
    (process_single_movie cfg top250 now b).2 = [] := by
  simp only [process_single_movie, hf, he]
  repeat' split
  all_goals rfl

lemma flatMap_of_map {α β γ : Type} (g : α → β) (f : β → List γ) (l : List α) :
    (l.map g).flatMap f = l.flatMap (fun x => f (g x)) := by
  induction l with
  | nil => rfl
  | cons h t ih => simp only [List.map_cons, List.flatMap_cons, ih]

lemma process_movies_snd (cfg : Config) (top250 : List String) (now : ℤ)
    (batch : List BatchItem) :
    (process_movies cfg top250 now batch).2 =
      batch.flatMap (fun b => (process_single_movie cfg top250 now b).2) := by
  unfold process_movies
  exact flatMap_of_map _ _ batch

lemma mem_process_movies_fst (cfg : Config) (top250 : List String) (now : ℤ)
    (batch : List BatchItem) (x : String) :
    x ∈ (process_movies cfg top250 now batch).1 ↔
      ∃ b ∈ batch, (process_single_movie cfg top250 now b).1 = some x ∧ x ≠ "" := by
  unfold process_movies
  simp only [List.mem_filterMap, List.mem_map]
  constructor
  · rintro ⟨r, ⟨b, hb, rfl⟩, hr⟩
    obtain ⟨h1, h2⟩ := (truthyId_eq_some _ _).mp hr
    exact ⟨b, hb, h1, h2⟩
  · rintro ⟨b, hb, h1, h2⟩
    exact ⟨process_single_movie cfg top250 now b, ⟨b, hb, rfl⟩,
      (truthyId_eq_some _ _).mpr ⟨h1, h2⟩⟩

lemma flatMap_snd_nil (cfg : Config) (top250 : List String) (now : ℤ)
    (l : List BatchItem)
    (h : ∀ b ∈ l, (process_single_movie cfg top250 now b).2 = []) :
    l.flatMap (fun b => (process_single_movie cfg top250 now b).2) = [] := by
  induction l with
  | nil => rfl
  | cons hd t ih =>
    rw [List.flatMap_cons, h hd (List.mem_cons_self hd t), List.nil_append]
    exact ih (fun b hb => h b (List.mem_cons_of_mem hd hb))

/-- Claim C4: in a batch where exactly one item fails with `NotFound` and
exactly one item fails with any other (transient) error while every other item
resolves, the aggregation result excludes exactly those two items and contains
the decision for every other item; the not-found item produces no error-log
entry while the transient-failure item is logged with its title and error
detail. -/
theorem c4_batch_isolation (cfg : Config) (top250 : List String) (now : ℤ)
    (pre mid post : List BatchItem) (nf tr : BatchItem) (etr : PyError)
    (hnodup : ((pre ++ nf :: (mid ++ tr :: post)).map BatchItem.tmdb_id).Nodup)
    (hnf : nf.fetch = .error .notFound)
    (htr : tr.fetch = .error etr) (hetr : etr ≠ .notFound)
    (htrid : tr.tmdb_id ≠ "")
    (hok : ∀ b ∈ pre ++ (mid ++ post), ∃ info exp, b.fetch = .ok info ∧
      calculate_expiry_date cfg top250 info = .ok exp) :
    nf.tmdb_id ∉
      (process_movies cfg top250 now (pre ++ nf :: (mid ++ tr :: post))).1 ∧
    tr.tmdb_id ∉
      (process_movies cfg top250 now (pre ++ nf :: (mid ++ tr :: post))).1 ∧
    (process_movies cfg top250 now (pre ++ nf :: (mid ++ tr :: post))).2 =
      ["Error processing movie " ++ tr.title ++ ": " ++ errMessage etr] ∧
    ∀ b ∈ pre ++ (mid ++ post),
      (b.tmdb_id ∈
          (process_movies cfg top250 now (pre ++ nf :: (mid ++ tr :: post))).1 ↔
        (process_single_movie cfg top250 now b).1 = some b.tmdb_id) := by
  have hnf_mem : nf ∈ pre ++ nf :: (mid ++ tr :: post) := by simp
  have htr_mem : tr ∈ pre ++ nf :: (mid ++ tr :: post) := by simp
  have hothers_mem : ∀ b ∈ pre ++ (mid ++ post), b ∈ pre ++ nf :: (mid ++ tr :: post) := by
    intro b hb
    simp only [List.mem_append, List.mem_cons] at hb ⊢
    tauto
  have hinj : ∀ x ∈ pre ++ nf :: (mid ++ tr :: post),
      ∀ y ∈ pre ++ nf :: (mid ++ tr :: post), x.tmdb_id = y.tmdb_id → x = y := by
    intro x hx y hy hxy
    exact List.inj_on_of_nodup_map hnodup hx hy hxy
  have hpsm_nf : process_single_movie cfg top250 now nf = (none, []) :=
    psm_notFound cfg top250 now nf hnf
  have hpsm_tr : process_single_movie cfg top250 now tr =
      (none, ["Error processing movie " ++ tr.title ++ ": " ++ errMessage etr]) :=
    psm_err cfg top250 now tr etr htr hetr htrid
  have hok_snd : ∀ b ∈ pre ++ (mid ++ post),
      (process_single_movie cfg top250 now b).2 = [] := by
    intro b hb
    obtain ⟨info, exp, hf, he⟩ := hok b hb
    exact psm_ok_snd cfg top250 now b info exp hf he
  refine ⟨?_, ?_, ?_, ?_⟩
  · intro hmem
    rw [mem_process_movies_fst] at hmem
    obtain ⟨c, hc, hfst, hne⟩ := hmem
    rcases psm_fst_cases cfg top250 now c with h0 | ⟨h1, _⟩
    · rw [h0] at hfst
      exact Option.noConfusion hfst
    · rw [h1] at hfst
      have hcnf : c = nf := hinj c hc nf hnf_mem (Option.some.inj hfst)
      rw [hcnf, hpsm_nf] at h1
      exact Option.noConfusion h1
  · intro hmem
    rw [mem_process_movies_fst] at hmem
    obtain ⟨c, hc, hfst, hne⟩ := hmem
    rcases psm_fst_cases cfg top250 now c with h0 | ⟨h1, _⟩
    · rw [h0] at hfst
      exact Option.noConfusion hfst
    · rw [h1] at hfst
      have hctr : c = tr := hinj c hc tr htr_mem (Option.some.inj hfst)
      rw [hctr, hpsm_tr] at h1
      exact Option.noConfusion h1
  · rw [process_movies_snd]
    rw [List.flatMap_append, List.flatMap_cons, List.flatMap_append,
      List.flatMap_cons]
    rw [flatMap_snd_nil cfg top250 now pre
        (fun b hb => hok_snd b (by simp only [List.mem_append]; exact Or.inl hb)),
      flatMap_snd_nil cfg top250 now mid
        (fun b hb => hok_snd b (by simp only [List.mem_append]; exact Or.inr (Or.inl hb))),
      flatMap_snd_nil cfg top250 now post
        (fun b hb => hok_snd b (by simp only [List.mem_append]; exact Or.inr (Or.inr hb))),
      hpsm_nf, hpsm_tr]
    simp
  · intro b hb
    constructor
    · intro hmem
      rw [mem_process_movies_fst] at hmem
      obtain ⟨c, hc, hfst, hne⟩ := hmem
      rcases psm_fst_cases cfg top250 now c with h0 | ⟨h1, _⟩
      · rw [h0] at hfst
        exact Option.noConfusion hfst
      · have hcb : c = b := by
          refine hinj c hc b (hothers_mem b hb) ?_
          have := h1 ▸ hfst
          exact Option.some.inj this
        rw [← hcb]
        rw [h1]
    · intro hfst
      rw [mem_process_movies_fst]
      rcases psm_fst_cases cfg top250 now b with h0 | ⟨h1, hne⟩
      · rw [h0] at hfst
        exact Option.noConfusion hfst
      · exact ⟨b, hothers_mem b hb, hfst, hne⟩

/-- The expired pipeline-witness item's expiry evaluates to day 60. -/
lemma expiry_itemExpired :
    calculate_expiry_date cfgStd []
      { infoBase with
        tmdb_id := "1"
        external_ratings := { erAbsent with imdb := some 1 } } = .ok (some 60) := by
  rw [calcExpiry_rule4 cfgStd [] _ 1 60
    (by simp [infoBase, ratingTruthy])
    (by rfl)
    (by rw [show ({ infoBase with
            tmdb_id := "1"
            external_ratings := { erAbsent with imdb := some 1 } } :
            MovieInfo).external_ratings = { erAbsent with imdb := some 1 } from rfl,
          davg_single_imdb 1 one_ne_zero, pyRound1_num 1 1 (by norm_num)])
    (by norm_num)
    (by rfl)]
  rfl

/-- The kept pipeline-witness item's expiry evaluates to day 160. -/
lemma expiry_itemKept :
    calculate_expiry_date cfgStd []
      { infoBase with
        tmdb_id := "4"
        added_at := 100
        external_ratings := { erAbsent with imdb := some 1 } } = .ok (some 160) := by
  rw [calcExpiry_rule4 cfgStd [] _ 1 60
    (by simp [infoBase, ratingTruthy])
    (by rfl)
    (by rw [show ({ infoBase with
            tmdb_id := "4"
            added_at := (100 : ℤ)
            external_ratings := { erAbsent with imdb := some 1 } } :
            MovieInfo).external_ratings = { erAbsent with imdb := some 1 } from rfl,
          davg_single_imdb 1 one_ne_zero, pyRound1_num 1 1 (by norm_num)])
    (by norm_num)
    (by rfl)]
  rfl

/-- Witness for C4 at a concrete four-item batch evaluated at day 100: one
expired item, one `NotFound` item, one transient failure, one kept item. -/
theorem c4_batch_isolation_witness :
    itemNotFound.tmdb_id ∉ (process_movies cfgStd [] 100
        ([itemExpired] ++ itemNotFound :: ([] ++ itemTransient :: [itemKept]))).1 ∧
    itemTransient.tmdb_id ∉ (process_movies cfgStd [] 100
        ([itemExpired] ++ itemNotFound :: ([] ++ itemTransient :: [itemKept]))).1 ∧
    (process_movies cfgStd [] 100
        ([itemExpired] ++ itemNotFound :: ([] ++ itemTransient :: [itemKept]))).2 =
      ["Error processing movie " ++ itemTransient.title ++ ": " ++
        errMessage (.other "connection reset")] ∧
    ∀ b ∈ [itemExpired] ++ ([] ++ [itemKept]),
      (b.tmdb_id ∈ (process_movies cfgStd [] 100
          ([itemExpired] ++ itemNotFound :: ([] ++ itemTransient :: [itemKept]))).1 ↔
        (process_single_movie cfgStd [] 100 b).1 = some b.tmdb_id) :=
  c4_batch_isolation cfgStd [] 100 [itemExpired] [] [itemKept] itemNotFound
    itemTransient (.other "connection reset")
    (by decide) rfl rfl (by decide) (by decide)
    (by
      intro b hb
      simp only [List.cons_append, List.nil_append, List.mem_cons,
        List.not_mem_nil, or_false, List.mem_singleton] at hb
      rcases hb with rfl | rfl
      · exact ⟨_, some 60, rfl, expiry_itemExpired⟩
      · exact ⟨_, some 160, rfl, expiry_itemKept⟩)
